import Mathlib

/-!
Shallow embedding of the fgbio-bam-mcp server (fgbio_wrapper.py and server.py).

The external environment (filesystem and subprocess execution) is modelled by a
read-only `World` oracle.  Each function that the Python code implements is
translated into a Lean function over that oracle; functions that may spawn an
external process additionally return the list of argument vectors passed to
`subprocess.run` during the call, so that "no process was spawned" is the
statement that this list is empty.  Python exceptions are modelled with
`Except`: `Exc.fgbio` is the `FgbioError` class of fgbio_wrapper.py and
`Exc.other` is any other Python exception, carrying `str(e)`.
-/

/-- Outcome of one `subprocess.run` invocation: the process completed with an
exit code and captured output streams, the bounded timeout fired
(`subprocess.TimeoutExpired`), the executable was missing
(`FileNotFoundError`, payload is `str(e)`), or some other exception was
raised (payload is `str(e)`). -/
inductive ProcOutcome where
  | completed (returncode : Int) (stdout stderr : String)
  | timedOut
  | fileNotFound (msg : String)
  | raised (msg : String)
deriving DecidableEq

/-- External environment: the filesystem predicates consulted during path
validation, the subprocess oracle, and the filesystem predicate consulted by
the handlers when they re-check the destination path after the tool ran
(the filesystem may have changed by then, hence a separate predicate). -/
structure World where
  pathExists : String → Bool
  isFile : String → Bool
  run : List String → ProcOutcome
  existsAfter : String → Bool

/-- Errors of fgbio_wrapper.py.  Each constructor is one `raise` site; the
carried data is exactly what the corresponding f-string interpolates. -/
inductive FgbioErr where
  | fileNotExists (p : String)
  | notAFile (p : String)
  | outputDirMissing (parent : String)
  | unexpectedVersion (out : String)
  | versionTimeout
  | commandNotFound (c : String)
  | runTimeout (tool : String)
  | runWrapped (tool : String) (inner : String)
  | outputNotCreated
deriving DecidableEq

/-- Python `str(e)` for a `FgbioError`: the message passed at the raise site. -/
def FgbioErr.msg : FgbioErr → String
  | .fileNotExists p => "File does not exist: " ++ p
  | .notAFile p => "Path is not a file: " ++ p
  | .outputDirMissing parent => "Output directory does not exist: " ++ parent
  | .unexpectedVersion out => "fgbio command returned unexpected output: " ++ out
  | .versionTimeout => "fgbio command timed out"
  | .commandNotFound c => "fgbio command not found: " ++ c
  | .runTimeout tool => "fgbio " ++ tool ++ " command timed out after 1 hour"
  | .runWrapped tool inner => "Failed to execute fgbio " ++ tool ++ ": " ++ inner
  | .outputNotCreated => "Output BAM file was not created"

/-- A raised Python exception: either a `FgbioError` or any other exception
class, the latter carrying `str(e)`. -/
inductive Exc where
  | fgbio (e : FgbioErr)
  | other (msg : String)
deriving DecidableEq

/-- Python `str(e)` of a modelled exception. -/
def Exc.str : Exc → String
  | .fgbio e => e.msg
  | .other m => m

/-- The apostrophe character, written by code point to keep source plain. -/
def apos : Char := Char.ofNat 39

/-- Python `s.strip()`: remove leading and trailing whitespace. -/
def pyStrip (s : String) : String :=
  String.mk (((s.data.dropWhile Char.isWhitespace).reverse.dropWhile
    Char.isWhitespace).reverse)

/-- Python `key.replace('_', '-')`: the pattern is a single character, so the
replacement is a character map. -/
def kebab (key : String) : String :=
  String.mk (key.data.map (fun c => if c = Char.ofNat 95 then Char.ofNat 45 else c))

def listIsPre : List Char → List Char → Bool
  | [], _ => true
  | _ :: _, [] => false
  | a :: as, b :: bs => a == b && listIsPre as bs

def listInfix (needle : List Char) : List Char → Bool
  | [] => listIsPre needle []
  | c :: cs => listIsPre needle (c :: cs) || listInfix needle cs

/-- Python `needle in hay` on strings: substring containment. -/
def strContains (hay needle : String) : Bool := listInfix needle.data hay.data

/-- Characters `shlex.quote` considers safe: word characters plus the
punctuation at-sign, percent, plus, equals, colon, comma, dot, slash, dash. -/
def shlexSafeChar (c : Char) : Bool :=
  (c.isAlpha || c.isDigit) || c = Char.ofNat 95 || c = Char.ofNat 64 ||
    c = Char.ofNat 37 || c = Char.ofNat 43 || c = Char.ofNat 61 ||
    c = Char.ofNat 58 || c = Char.ofNat 44 || c = Char.ofNat 46 ||
    c = Char.ofNat 47 || c = Char.ofNat 45

/-- Python `shlex.quote(s)`: empty string becomes a pair of single quotes, a
string of safe characters is returned unchanged, anything else is wrapped in
single quotes with each embedded single quote escaped as `'"'"'`. -/
def shlexQuote (s : String) : String :=
  if s = "" then String.mk [apos, apos]
  else if s.data.all shlexSafeChar then s
  else
    String.mk (apos :: (s.data.flatMap
      (fun c => if c = apos then [apos, Char.ofNat 34, apos, Char.ofNat 34, apos]
        else [c])) ++ [apos])

/-- Python `' '.join(shlex.quote(str(c)) for c in cmd)` for a list of strings. -/
def cmdJoin (cmd : List String) : String :=
  String.intercalate " " (cmd.map shlexQuote)

/-- Split a character list at slashes, keeping empty pieces, as Python
`p.split('/')` does. -/
def splitSlash : List Char → List String
  | [] => [""]
  | c :: cs =>
    if c = Char.ofNat 47 then "" :: splitSlash cs
    else match splitSlash cs with
      | [] => [String.mk [c]]
      | g :: gs => String.mk (c :: g.data) :: gs

/-- Model of `pathlib.Path(p).parent`: drop the last path component, with `.`
for a bare name and `/` preserved as the root.  `.` and empty components are
dropped as pathlib does when parsing. -/
def parentPath (p : String) : String :=
  let isAbs : Bool := p.data.head? = some (Char.ofNat 47)
  let comps := (splitSlash p.data).filter (fun c => c ≠ "" && c ≠ ".")
  match comps with
  | [] => if isAbs then "/" else "."
  | _ :: _ =>
    let front := comps.dropLast
    if isAbs then "/" ++ String.intercalate "/" front
    else if front = [] then "." else String.intercalate "/" front

/-- Value of one entry of a parameter dictionary that is neither `None`, a
bool, nor a list: a Python string or integer, stringified with `str`. -/
inductive PPrim where
  | pStr (s : String)
  | pInt (n : Int)
deriving DecidableEq

/-- Python `str(item)` on a primitive parameter value. -/
def PPrim.str : PPrim → String
  | .pStr s => s
  | .pInt n => toString n

/-- Value of one entry of the parameter dictionary handed to
`_build_command`: `None`, a bool, a list, or a primitive. -/
inductive PValue where
  | vNone
  | vBool (b : Bool)
  | vList (xs : List PPrim)
  | vPrim (v : PPrim)
deriving DecidableEq

/-- Loop body of `_build_command` (fgbio_wrapper.py lines 90-104): `None` is
skipped, a true bool emits a bare `--flag`, a false bool emits nothing, a
list repeats `--flag str(item)` per element, and any other value emits
`--flag str(value)`; the key is mapped to kebab-case. -/
def buildParamArgs : List (String × PValue) → List String
  | [] => []
  | (key, value) :: rest =>
    (match value with
      | .vNone => []
      | .vBool b => if b then ["--" ++ kebab key] else []
      | .vList xs => (xs.map (fun item => ["--" ++ kebab key, item.str])).flatten
      | .vPrim v => ["--" ++ kebab key, v.str]) ++ buildParamArgs rest

/-- FgbioWrapper._build_command: the executable, the tool name, then the
flags built from the parameter dictionary in insertion order. -/
def _build_command (fgbio_command tool_name : String)
    (params : List (String × PValue)) : List String :=
  fgbio_command :: tool_name :: buildParamArgs params

/-- FgbioWrapper._validate_fgbio_available: run `fgbio --version` with a 30s
timeout; take stderr stripped, falling back to stdout stripped; fail unless
that output is nonempty and contains "Version:"; the exit code is ignored.
`TimeoutExpired` and `FileNotFoundError` are mapped to `FgbioError`s; any
other exception propagates unchanged.  Returns the spawned command vectors
alongside the result. -/
def _validate_fgbio_available (fgbio_command : String) (w : World) :
    Except Exc String × List (List String) :=
  let cmd : List String := [fgbio_command, "--version"]
  match w.run cmd with
  | .completed _rc out err =>
    let version_output := if pyStrip err ≠ "" then pyStrip err else pyStrip out
    if version_output = "" || strContains version_output "Version:" = false then
      (.error (.fgbio (.unexpectedVersion version_output)), [cmd])
    else (.ok version_output, [cmd])
  | .timedOut => (.error (.fgbio .versionTimeout), [cmd])
  | .fileNotFound _ => (.error (.fgbio (.commandNotFound fgbio_command)), [cmd])
  | .raised m => (.error (.other m), [cmd])

/-- FgbioWrapper._validate_file_path: with `must_exist` the path must exist
and be a regular file; otherwise the parent directory must exist.  Purely a
sequence of filesystem queries; no spawn, no write. -/
def _validate_file_path (w : World) (file_path : String) (must_exist : Bool) :
    Except Exc String :=
  if must_exist && !w.pathExists file_path then
    .error (.fgbio (.fileNotExists file_path))
  else if must_exist && !w.isFile file_path then
    .error (.fgbio (.notAFile file_path))
  else if !must_exist && !w.pathExists (parentPath file_path) then
    .error (.fgbio (.outputDirMissing (parentPath file_path)))
  else .ok file_path

/-- Result dictionary returned by `run_command` on success. -/
structure ExecResult where
  success : Bool
  stdout : String
  stderr : String
  return_code : Int
  command : String
deriving DecidableEq

/-- FgbioWrapper.run_command: build the argument vector, spawn the process
with a 3600s timeout, and on a non-zero exit raise a `FgbioError`.  That
raise happens inside the `try` block, so the generic `except Exception`
clause catches it and re-raises it wrapped in "Failed to execute fgbio
{tool}: ..."; the same clause wraps `FileNotFoundError` and any other
exception, while `TimeoutExpired` is caught by its own clause first.  The
returned list records the single `subprocess.run` invocation. -/
def run_command (fgbio_command : String) (w : World) (tool_name : String)
    (params : List (String × PValue)) :
    Except Exc ExecResult × List (List String) :=
  let cmd := _build_command fgbio_command tool_name params
  match w.run cmd with
  | .completed rc out err =>
    if rc ≠ 0 then
      (.error (.fgbio (.runWrapped tool_name
        ("fgbio " ++ tool_name ++ " failed with return code " ++ toString rc ++
          ": " ++ err))), [cmd])
    else
      (.ok { success := true, stdout := out, stderr := err, return_code := rc,
             command := cmdJoin cmd }, [cmd])
  | .timedOut => (.error (.fgbio (.runTimeout tool_name)), [cmd])
  | .fileNotFound m => (.error (.fgbio (.runWrapped tool_name m)), [cmd])
  | .raised m => (.error (.fgbio (.runWrapped tool_name m)), [cmd])

/-- Parameter dictionary assembled by FgbioWrapper.sort_bam: `input`,
`output`, `sort_order` always; `tmp_dir` when `temp_dir` is truthy (a
nonempty string); `max_records_in_ram` when truthy (present and nonzero). -/
def sortParamsList (input_bam output_bam sort_order : String)
    (temp_dir : Option String) (max_records_in_ram : Option Int) :
    List (String × PValue) :=
  [("input", PValue.vPrim (.pStr input_bam)),
   ("output", PValue.vPrim (.pStr output_bam)),
   ("sort_order", PValue.vPrim (.pStr sort_order))] ++
  (match temp_dir with
    | some t => if t ≠ "" then [("tmp_dir", PValue.vPrim (.pStr t))] else []
    | none => []) ++
  (match max_records_in_ram with
    | some m => if m ≠ 0 then [("max_records_in_ram", PValue.vPrim (.pInt m))] else []
    | none => [])

/-- FgbioWrapper.sort_bam: validate the input path (must exist) and the
output path (parent must exist), then delegate to `run_command "SortBam"`.
A validation failure raises before any process is spawned, hence the empty
spawn list on those branches. -/
def FgbioWrapper.sort_bam (fgbio_command : String) (w : World)
    (input_bam output_bam sort_order : String) (temp_dir : Option String)
    (max_records_in_ram : Option Int) :
    Except Exc ExecResult × List (List String) :=
  match _validate_file_path w input_bam true with
  | .error e => (.error e, [])
  | .ok _ =>
    match _validate_file_path w output_bam false with
    | .error e => (.error e, [])
    | .ok _ =>
      run_command fgbio_command w "SortBam"
        (sortParamsList input_bam output_bam sort_order temp_dir max_records_in_ram)

/-- SortBamRequest after pydantic validation (server.py). -/
structure SortBamRequest where
  input_bam : String
  output_bam : String
  sort_order : String
  temp_dir : Option String
  max_records_in_ram : Option Int
deriving DecidableEq

/-- FilterBamRequest after pydantic validation (server.py). -/
structure FilterBamRequest where
  input_bam : String
  output_bam : String
  rejects : Option String
  intervals : Option String
  remove_duplicates : Bool
  remove_unmapped_reads : Bool
  min_map_q : Int
  remove_single_end_mappings : Bool
  remove_secondary_alignments : Bool
  min_insert_size : Option Int
  max_insert_size : Option Int
  min_mapped_bases : Option Int
deriving DecidableEq

/-- Check applied by the optional-path field validators: absent is fine, a
present value must not strip to the empty string. -/
def stripOptOk : Option String → Bool
  | none => true
  | some s => pyStrip s ≠ ""

/-- Check applied by the `gt=0` field constraint on optional integers. -/
def posOptOk : Option Int → Bool
  | none => true
  | some n => 0 < n

/-- Cross-field validator on `max_insert_size` (server.py lines 153-161):
rejects only when both bounds are present and `max <= min`. -/
def insertSizeCrossBad : Option Int → Option Int → Bool
  | some m, some v => decide (v ≤ m)
  | _, _ => false

/-- Allowed values of the `sort_order` literal field. -/
def sortOrders : List String := ["coordinate", "queryname", "random", "unsorted"]

/-- Pydantic construction of a SortBamRequest.  Fields are checked in
declaration order and the first failure is reported (pydantic collects all
failures, but a request is rejected in the model exactly when pydantic
rejects it; the carried messages are representative).  Path validators
return the stripped value. -/
def mkSortBamRequest (input_bam output_bam sort_order : String)
    (temp_dir : Option String) (max_records_in_ram : Option Int) :
    Except Exc SortBamRequest :=
  if pyStrip input_bam = "" then .error (.other "Path cannot be empty")
  else if pyStrip output_bam = "" then .error (.other "Path cannot be empty")
  else if sortOrders.contains sort_order = false then
    .error (.other "Input should be a valid sort order literal")
  else if stripOptOk temp_dir = false then
    .error (.other "Temp directory cannot be empty string")
  else if posOptOk max_records_in_ram = false then
    .error (.other "Input should be greater than 0")
  else .ok { input_bam := pyStrip input_bam, output_bam := pyStrip output_bam,
             sort_order := sort_order, temp_dir := Option.map pyStrip temp_dir,
             max_records_in_ram := max_records_in_ram }

/-- Pydantic construction of a FilterBamRequest, fields in declaration
order; the cross-field validator on `max_insert_size` runs after that
field's own `gt=0` check and before `min_mapped_bases` is processed. -/
def mkFilterBamRequest (input_bam output_bam : String)
    (rejects intervals : Option String)
    (remove_duplicates remove_unmapped_reads : Bool) (min_map_q : Int)
    (remove_single_end_mappings remove_secondary_alignments : Bool)
    (min_insert_size max_insert_size min_mapped_bases : Option Int) :
    Except Exc FilterBamRequest :=
  if pyStrip input_bam = "" then .error (.other "Path cannot be empty")
  else if pyStrip output_bam = "" then .error (.other "Path cannot be empty")
  else if stripOptOk rejects = false then
    .error (.other "Path cannot be empty string")
  else if stripOptOk intervals = false then
    .error (.other "Path cannot be empty string")
  else if min_map_q < 0 then
    .error (.other "Input should be greater than or equal to 0")
  else if posOptOk min_insert_size = false then
    .error (.other "Input should be greater than 0")
  else if posOptOk max_insert_size = false then
    .error (.other "Input should be greater than 0")
  else if insertSizeCrossBad min_insert_size max_insert_size then
    .error (.other "max_insert_size must be greater than min_insert_size")
  else if posOptOk min_mapped_bases = false then
    .error (.other "Input should be greater than 0")
  else .ok { input_bam := pyStrip input_bam, output_bam := pyStrip output_bam,
             rejects := Option.map pyStrip rejects,
             intervals := Option.map pyStrip intervals,
             remove_duplicates := remove_duplicates,
             remove_unmapped_reads := remove_unmapped_reads,
             min_map_q := min_map_q,
             remove_single_end_mappings := remove_single_end_mappings,
             remove_secondary_alignments := remove_secondary_alignments,
             min_insert_size := min_insert_size,
             max_insert_size := max_insert_size,
             min_mapped_bases := min_mapped_bases }

/-- SortBamResponse (server.py). -/
structure SortBamResponse where
  success : Bool
  message : String
  input_file : String
  output_file : String
  sort_order : String
  command_executed : Option String
  stdout : Option String
  stderr : Option String
deriving DecidableEq

/-- Value stored in the `filters_applied` summary dictionary. -/
inductive FilterVal where
  | b (x : Bool)
  | i (x : Int)
deriving DecidableEq

/-- FilterBamResponse (server.py); `filters_applied` is a dictionary in
insertion order. -/
structure FilterBamResponse where
  success : Bool
  message : String
  input_file : String
  output_file : String
  rejects_file : Option String
  intervals_file : Option String
  filters_applied : List (String × FilterVal)
  command_executed : Option String
  stdout : Option String
  stderr : Option String
deriving DecidableEq

/-- Message produced by the two except clauses of each handler: a
`FgbioError` is reported as "fgbio error: ...", any other exception as
"Unexpected error: ...". -/
def excHandlerMsg : Exc → String
  | .fgbio e => "fgbio error: " ++ e.msg
  | .other m => "Unexpected error: " ++ m

/-- Body of the server sort_bam handler (the try block, server.py lines
237-266, with the wrapper already initialized): delegate to
FgbioWrapper.sort_bam, re-check that the destination exists, and build the
success response.  The f-string of the success message wraps the sort order
in single quotes. -/
def Server.sort_bam_body (fgbio_command : String) (w : World)
    (req : SortBamRequest) :
    Except Exc SortBamResponse × List (List String) :=
  match FgbioWrapper.sort_bam fgbio_command w req.input_bam req.output_bam
      req.sort_order req.temp_dir req.max_records_in_ram with
  | (.error e, log) => (.error e, log)
  | (.ok result, log) =>
    if w.existsAfter req.output_bam = false then
      (.error (.fgbio .outputNotCreated), log)
    else
      (.ok { success := true,
             message := "Successfully sorted BAM file with sort order " ++
               String.mk (apos :: req.sort_order.data ++ [apos]),
             input_file := req.input_bam, output_file := req.output_bam,
             sort_order := req.sort_order,
             command_executed := some result.command,
             stdout := some result.stdout, stderr := some result.stderr }, log)

/-- Server sort_bam handler: the body's exceptions are caught and converted
into a failure response echoing the request's paths; nothing propagates. -/
def Server.sort_bam (fgbio_command : String) (w : World)
    (req : SortBamRequest) : SortBamResponse × List (List String) :=
  match Server.sort_bam_body fgbio_command w req with
  | (.ok resp, log) => (resp, log)
  | (.error e, log) =>
    ({ success := false, message := excHandlerMsg e,
       input_file := req.input_bam, output_file := req.output_bam,
       sort_order := req.sort_order, command_executed := none,
       stdout := none, stderr := none }, log)

/-- Python `str(e)` of the AttributeError raised when server.filter_bam
accesses `wrapper.filter_bam`, a method the FgbioWrapper class does not
define. -/
def attrErrMsg : String :=
  String.mk (apos :: "FgbioWrapper".data ++ [apos]) ++
    " object has no attribute " ++
    String.mk (apos :: "filter_bam".data ++ [apos])

/-- Server filter_bam handler as written (server.py lines 289-392): the
attribute lookup `wrapper.filter_bam` fails on every call because
FgbioWrapper defines no such method, so the `AttributeError` reaches the
generic except clause (lines 382-392) before any validation or spawn, and
the handler returns the corresponding failure response with an empty
`filters_applied` dictionary. -/
def Server.filter_bam (_w : World) (req : FilterBamRequest) :
    FilterBamResponse × List (List String) :=
  ({ success := false, message := "Unexpected error: " ++ attrErrMsg,
     input_file := req.input_bam, output_file := req.output_bam,
     rejects_file := req.rejects, intervals_file := req.intervals,
     filters_applied := [], command_executed := none,
     stdout := none, stderr := none }, [])

/-- Summary dictionary assembled by server.filter_bam (lines 341-356): the
five toggles and min_map_q always, then insert-size bounds and
min-mapped-bases when present, then an intervals flag when the intervals
field is truthy.  This code is unreachable in the repository as written;
it is reached only through the intended wrapper call. -/
def filtersAppliedSummary (req : FilterBamRequest) : List (String × FilterVal) :=
  [("remove_duplicates", FilterVal.b req.remove_duplicates),
   ("remove_unmapped_reads", FilterVal.b req.remove_unmapped_reads),
   ("min_map_q", FilterVal.i req.min_map_q),
   ("remove_single_end_mappings", FilterVal.b req.remove_single_end_mappings),
   ("remove_secondary_alignments", FilterVal.b req.remove_secondary_alignments)] ++
  (match req.min_insert_size with
    | some m => [("min_insert_size", FilterVal.i m)] | none => []) ++
  (match req.max_insert_size with
    | some m => [("max_insert_size", FilterVal.i m)] | none => []) ++
  (match req.min_mapped_bases with
    | some m => [("min_mapped_bases", FilterVal.i m)] | none => []) ++
  (match req.intervals with
    | some s => if s ≠ "" then [("intervals_filter", FilterVal.b true)] else []
    | none => [])

/-- Parameter dictionary for the FilterBam tool.
Modelled from the spec: `FgbioWrapper.filter_bam` is called by
server.filter_bam but the method is absent from the FgbioWrapper class;
section 4.3 prescribes that the handler "assembles parameters" from its
inputs and delegates to the Process Runner, so each keyword argument of the
server call becomes one dictionary entry, absent optionals as `None`. -/
def filterParamsList (input_bam output_bam : String)
    (rejects intervals : Option String)
    (remove_duplicates remove_unmapped_reads : Bool) (min_map_q : Int)
    (remove_single_end_mappings remove_secondary_alignments : Bool)
    (min_insert_size max_insert_size min_mapped_bases : Option Int) :
    List (String × PValue) :=
  [("input", PValue.vPrim (.pStr input_bam)),
   ("output", PValue.vPrim (.pStr output_bam)),
   ("rejects", match rejects with
     | some s => PValue.vPrim (.pStr s) | none => PValue.vNone),
   ("intervals", match intervals with
     | some s => PValue.vPrim (.pStr s) | none => PValue.vNone),
   ("remove_duplicates", PValue.vBool remove_duplicates),
   ("remove_unmapped_reads", PValue.vBool remove_unmapped_reads),
   ("min_map_q", PValue.vPrim (.pInt min_map_q)),
   ("remove_single_end_mappings", PValue.vBool remove_single_end_mappings),
   ("remove_secondary_alignments", PValue.vBool remove_secondary_alignments),
   ("min_insert_size", match min_insert_size with
     | some n => PValue.vPrim (.pInt n) | none => PValue.vNone),
   ("max_insert_size", match max_insert_size with
     | some n => PValue.vPrim (.pInt n) | none => PValue.vNone),
   ("min_mapped_bases", match min_mapped_bases with
     | some n => PValue.vPrim (.pInt n) | none => PValue.vNone)]

/-- Modelled from the spec: `FgbioWrapper.filter_bam` is absent from the
FgbioWrapper class although server.filter_bam calls it; section 4.3
prescribes "the same validate - assemble - run pattern" as sort_bam, so the
model validates the input path (must exist) and the output path (parent
must exist) and delegates to `run_command "FilterBam"`. -/
def FgbioWrapper.filter_bam_modelled (fgbio_command : String) (w : World)
    (input_bam output_bam : String) (rejects intervals : Option String)
    (remove_duplicates remove_unmapped_reads : Bool) (min_map_q : Int)
    (remove_single_end_mappings remove_secondary_alignments : Bool)
    (min_insert_size max_insert_size min_mapped_bases : Option Int) :
    Except Exc ExecResult × List (List String) :=
  match _validate_file_path w input_bam true with
  | .error e => (.error e, [])
  | .ok _ =>
    match _validate_file_path w output_bam false with
    | .error e => (.error e, [])
    | .ok _ =>
      run_command fgbio_command w "FilterBam"
        (filterParamsList input_bam output_bam rejects intervals
          remove_duplicates remove_unmapped_reads min_map_q
          remove_single_end_mappings remove_secondary_alignments
          min_insert_size max_insert_size min_mapped_bases)

/-- Body of the intended server filter_bam handler: the code of server.py
lines 313-369 with the wrapper call resolved to the spec-modelled
`FgbioWrapper.filter_bam_modelled` (the lines after the call, including the
destination re-check and the summary assembly, are translated from the
source; they are dead code in the repository as written). -/
def Server.filter_bam_intended_body (fgbio_command : String) (w : World)
    (req : FilterBamRequest) :
    Except Exc FilterBamResponse × List (List String) :=
  match FgbioWrapper.filter_bam_modelled fgbio_command w req.input_bam
      req.output_bam req.rejects req.intervals req.remove_duplicates
      req.remove_unmapped_reads req.min_map_q req.remove_single_end_mappings
      req.remove_secondary_alignments req.min_insert_size req.max_insert_size
      req.min_mapped_bases with
  | (.error e, log) => (.error e, log)
  | (.ok result, log) =>
    if w.existsAfter req.output_bam = false then
      (.error (.fgbio .outputNotCreated), log)
    else
      (.ok { success := true, message := "Successfully filtered BAM file",
             input_file := req.input_bam, output_file := req.output_bam,
             rejects_file := req.rejects, intervals_file := req.intervals,
             filters_applied := filtersAppliedSummary req,
             command_executed := some result.command,
             stdout := some result.stdout, stderr := some result.stderr }, log)

/-- Intended server filter_bam handler with the except clauses of server.py
lines 371-392: failures become a structured response echoing the request
paths with an empty summary. -/
def Server.filter_bam_intended (fgbio_command : String) (w : World)
    (req : FilterBamRequest) : FilterBamResponse × List (List String) :=
  match Server.filter_bam_intended_body fgbio_command w req with
  | (.ok resp, log) => (resp, log)
  | (.error e, log) =>
    ({ success := false, message := excHandlerMsg e,
       input_file := req.input_bam, output_file := req.output_bam,
       rejects_file := req.rejects, intervals_file := req.intervals,
       filters_applied := [], command_executed := none,
       stdout := none, stderr := none }, log)

/-- Whether an Except value is an error. -/
def isErr {α : Type} : Except Exc α → Bool
  | .error _ => true
  | .ok _ => false

/-- Unfolding lemma for run_command, eliminating the local binding. -/
theorem run_command_eq (fgbio_command : String) (w : World) (tool_name : String)
    (params : List (String × PValue)) :
    run_command fgbio_command w tool_name params =
      match w.run (_build_command fgbio_command tool_name params) with
      | .completed rc out err =>
        if rc ≠ 0 then
          (.error (.fgbio (.runWrapped tool_name
            ("fgbio " ++ tool_name ++ " failed with return code " ++
              toString rc ++ ": " ++ err))),
            [_build_command fgbio_command tool_name params])
        else
          (.ok { success := true, stdout := out, stderr := err,
                 return_code := rc,
                 command := cmdJoin (_build_command fgbio_command tool_name params) },
            [_build_command fgbio_command tool_name params])
      | .timedOut => (.error (.fgbio (.runTimeout tool_name)),
          [_build_command fgbio_command tool_name params])
      | .fileNotFound m => (.error (.fgbio (.runWrapped tool_name m)),
          [_build_command fgbio_command tool_name params])
      | .raised m => (.error (.fgbio (.runWrapped tool_name m)),
          [_build_command fgbio_command tool_name params]) := rfl

/-- C3: for every tool name and ordered parameter mapping, the command
builder omits entries whose value is absent or boolean false, emits a single
bare flag for boolean true, emits the flag once per element for a list,
emits flag plus stringified value for every other value, maps underscore
keys to hyphenated flags, and prefixes the executable and tool name; being a
function of the ordered mapping, the output is deterministic given the
input order. -/
theorem c3_build_command_cases (fgbio tool key : String) (v : PPrim)
    (xs : List PPrim) (rest : List (String × PValue)) :
    buildParamArgs ((key, PValue.vNone) :: rest) = buildParamArgs rest ∧
    buildParamArgs ((key, PValue.vBool false) :: rest) = buildParamArgs rest ∧
    buildParamArgs ((key, PValue.vBool true) :: rest) =
      ("--" ++ kebab key) :: buildParamArgs rest ∧
    buildParamArgs ((key, PValue.vList xs) :: rest) =
      (xs.map (fun item => ["--" ++ kebab key, item.str])).flatten ++
        buildParamArgs rest ∧
    buildParamArgs ((key, PValue.vPrim v) :: rest) =
      ("--" ++ kebab key) :: v.str :: buildParamArgs rest ∧
    kebab key = String.mk (key.data.map
      (fun c => if c = Char.ofNat 95 then Char.ofNat 45 else c)) ∧
    _build_command fgbio tool rest = fgbio :: tool :: buildParamArgs rest :=
  ⟨rfl, rfl, rfl, rfl, rfl, rfl, rfl⟩

/-- C4: path validation with mustExist fails exactly when the path does not
exist or is not a regular file; without mustExist it fails exactly when the
parent directory does not exist; it is a pure function of the filesystem
predicates. -/
theorem c4_validate_path_iff (w : World) (p : String) :
    (isErr (_validate_file_path w p true) = true ↔
      ¬(w.pathExists p = true ∧ w.isFile p = true)) ∧
    (isErr (_validate_file_path w p false) = true ↔
      w.pathExists (parentPath p) = false) := by
  constructor
  · unfold _validate_file_path
    cases hex : w.pathExists p <;> cases hf : w.isFile p <;>
      simp [isErr, hex, hf]
  · unfold _validate_file_path
    cases hp : w.pathExists (parentPath p) <;> simp [isErr, hp]

/-- C5: run_command fails with the execution-failure FgbioError carrying the
exit code and captured stderr on a non-zero exit (re-wrapped by the generic
except clause, as the code does), fails with the timeout FgbioError when the
bounded wait expires, and on exit 0 returns the execution record with the
success flag, both captured streams, the exit code, and the reconstructed
command string. -/
theorem c5_run_command_outcomes (fgbio : String) (w : World) (tool : String)
    (params : List (String × PValue)) (rc : Int) (out err : String) :
    (w.run (_build_command fgbio tool params) = .completed rc out err →
      (rc ≠ 0 → (run_command fgbio w tool params).1 =
        .error (.fgbio (.runWrapped tool ("fgbio " ++ tool ++
          " failed with return code " ++ toString rc ++ ": " ++ err)))) ∧
      (rc = 0 → (run_command fgbio w tool params).1 =
        .ok { success := true, stdout := out, stderr := err, return_code := rc,
              command := cmdJoin (_build_command fgbio tool params) })) ∧
    (w.run (_build_command fgbio tool params) = .timedOut →
      (run_command fgbio w tool params).1 =
        .error (.fgbio (.runTimeout tool))) := by
  constructor
  · intro h
    refine ⟨fun hne => ?_, fun h0 => ?_⟩
    · rw [run_command_eq, h]
      simp [hne]
    · rw [run_command_eq, h]
      simp [h0]
  · intro h
    rw [run_command_eq, h]

/-- C5 witness: a process exiting 2 yields the wrapped execution error, a
timeout yields the timeout error, and exit 0 yields the success record. -/
def c5WorldFail : World :=
  ⟨fun _ => true, fun _ => true, fun _ => .completed 2 "so" "se", fun _ => true⟩

def c5WorldTime : World :=
  ⟨fun _ => true, fun _ => true, fun _ => .timedOut, fun _ => true⟩

def c5WorldOk : World :=
  ⟨fun _ => true, fun _ => true, fun _ => .completed 0 "so" "se", fun _ => true⟩

theorem c5_run_command_outcomes_witness :
    (run_command "fgbio" c5WorldFail "SortBam" []).1 =
      .error (.fgbio (.runWrapped "SortBam"
        "fgbio SortBam failed with return code 2: se")) ∧
    (run_command "fgbio" c5WorldTime "SortBam" []).1 =
      .error (.fgbio (.runTimeout "SortBam")) ∧
    (run_command "fgbio" c5WorldOk "SortBam" []).1 =
      .ok { success := true, stdout := "so", stderr := "se", return_code := 0,
            command := "fgbio SortBam" } :=
  ⟨((c5_run_command_outcomes "fgbio" c5WorldFail "SortBam" [] 2 "so" "se").1
      rfl).1 (by decide),
   (c5_run_command_outcomes "fgbio" c5WorldTime "SortBam" [] 0 "" "").2 rfl,
   ((c5_run_command_outcomes "fgbio" c5WorldOk "SortBam" [] 0 "so" "se").1
      rfl).2 rfl⟩

/-- C10: every execution record that run_command actually returns has its
success flag true and exit code 0; all failure paths raise instead. -/
theorem c10_run_ok_invariant (fgbio : String) (w : World) (tool : String)
    (params : List (String × PValue)) (r : ExecResult)
    (log : List (List String))
    (h : run_command fgbio w tool params = (.ok r, log)) :
    r.success = true ∧ r.return_code = 0 := by
  rw [run_command_eq] at h
  cases hrun : w.run (_build_command fgbio tool params) <;>
    rw [hrun] at h <;> dsimp only at h
  case completed rc out err =>
    by_cases hrc : rc = 0
    · rw [if_neg (not_not_intro hrc)] at h
      simp only [Prod.mk.injEq] at h
      injection h.1 with h2
      exact ⟨by rw [← h2], by rw [← h2]; exact hrc⟩
    · rw [if_pos hrc] at h
      simp only [Prod.mk.injEq] at h
      exact absurd h.1 (by simp)
  case timedOut =>
    simp only [Prod.mk.injEq] at h
    exact absurd h.1 (by simp)
  case fileNotFound m =>
    simp only [Prod.mk.injEq] at h
    exact absurd h.1 (by simp)
  case raised m =>
    simp only [Prod.mk.injEq] at h
    exact absurd h.1 (by simp)

/-- C10 witness: a concrete successful run returns the flag true and exit
code 0. -/
def c10World : World :=
  ⟨fun _ => true, fun _ => true, fun _ => .completed 0 "o" "e", fun _ => true⟩

def c10Result : ExecResult :=
  { success := true, stdout := "o", stderr := "e", return_code := 0,
    command := "fgbio SortBam" }

theorem c10_run_ok_invariant_witness :
    c10Result.success = true ∧ c10Result.return_code = 0 :=
  c10_run_ok_invariant "fgbio" c10World "SortBam" [] c10Result
    [["fgbio", "SortBam"]] rfl

/-- Unfolding lemma for the availability check, eliminating local bindings. -/
theorem validate_available_eq (cmd : String) (w : World) :
    _validate_fgbio_available cmd w =
      match w.run [cmd, "--version"] with
      | .completed _rc out err =>
        if (if pyStrip err ≠ "" then pyStrip err else pyStrip out) = "" ||
            strContains (if pyStrip err ≠ "" then pyStrip err else pyStrip out)
              "Version:" = false then
          (.error (.fgbio (.unexpectedVersion
            (if pyStrip err ≠ "" then pyStrip err else pyStrip out))),
            [[cmd, "--version"]])
        else (.ok (if pyStrip err ≠ "" then pyStrip err else pyStrip out),
          [[cmd, "--version"]])
      | .timedOut => (.error (.fgbio .versionTimeout), [[cmd, "--version"]])
      | .fileNotFound _ => (.error (.fgbio (.commandNotFound cmd)),
          [[cmd, "--version"]])
      | .raised m => (.error (.other m), [[cmd, "--version"]]) := rfl

/-- C7: the availability check succeeds exactly when the combined output
(stderr stripped, falling back to stdout stripped) contains the marker
"Version:", with the exit code universally quantified and unconstrained;
it fails with the tool-unavailable FgbioErrors on timeout and on a missing
executable. -/
theorem c7_check_available (cmd : String) (w : World) (rc : Int)
    (out err : String) :
    (w.run [cmd, "--version"] = .completed rc out err →
      (isErr (_validate_fgbio_available cmd w).1 = false ↔
        strContains (if pyStrip err ≠ "" then pyStrip err else pyStrip out)
          "Version:" = true)) ∧
    (w.run [cmd, "--version"] = .timedOut →
      (_validate_fgbio_available cmd w).1 = .error (.fgbio .versionTimeout)) ∧
    (∀ m, w.run [cmd, "--version"] = .fileNotFound m →
      (_validate_fgbio_available cmd w).1 =
        .error (.fgbio (.commandNotFound cmd))) := by
  refine ⟨fun h => ?_, fun h => ?_, fun m h => ?_⟩
  · rw [validate_available_eq, h]
    dsimp only
    generalize (if pyStrip err ≠ "" then pyStrip err else pyStrip out) = vo
    by_cases hc : strContains vo "Version:" = true
    · have hne : ¬(vo = "") := by
        intro he
        rw [he] at hc
        exact absurd hc (by decide)
      simp [hc, hne, isErr]
    · simp only [Bool.not_eq_true] at hc
      simp [hc, isErr]
  · rw [validate_available_eq, h]
  · rw [validate_available_eq, h]

/-- C7 witness: exit code 1 with a version string on stderr is success;
timeout and missing executable produce the corresponding errors; marker-free
output is a failure. -/
def c7WorldOk : World :=
  ⟨fun _ => true, fun _ => true,
   fun _ => .completed 1 "" "fgbio Version: 2.0.2", fun _ => true⟩

def c7WorldTime : World :=
  ⟨fun _ => true, fun _ => true, fun _ => .timedOut, fun _ => true⟩

def c7WorldMissing : World :=
  ⟨fun _ => true, fun _ => true, fun _ => .fileNotFound "no such file",
   fun _ => true⟩

def c7WorldJunk : World :=
  ⟨fun _ => true, fun _ => true, fun _ => .completed 0 "junk" "", fun _ => true⟩

theorem c7_check_available_witness :
    isErr (_validate_fgbio_available "fgbio" c7WorldOk).1 = false ∧
    (_validate_fgbio_available "fgbio" c7WorldTime).1 =
      .error (.fgbio .versionTimeout) ∧
    (_validate_fgbio_available "fgbio" c7WorldMissing).1 =
      .error (.fgbio (.commandNotFound "fgbio")) ∧
    isErr (_validate_fgbio_available "fgbio" c7WorldJunk).1 = true :=
  ⟨((c7_check_available "fgbio" c7WorldOk 1 "" "fgbio Version: 2.0.2").1
      rfl).mpr (by decide),
   (c7_check_available "fgbio" c7WorldTime 0 "" "").2.1 rfl,
   (c7_check_available "fgbio" c7WorldMissing 0 "" "").2.2 "no such file" rfl,
   by
    have h := ((c7_check_available "fgbio" c7WorldJunk 0 "junk" "").1 rfl)
    cases hx : isErr (_validate_fgbio_available "fgbio" c7WorldJunk).1
    · exact absurd (h.mp hx) (by decide)
    · rfl⟩

/-- C2: the sort handler converts every body exception into a structured
failure response carrying the handler message and echoing the request
paths, and the filter handler as written converts the AttributeError it
always encounters into the same kind of structured failure; neither handler
ever produces anything but a response value. -/
theorem c2_handler_error_containment :
    (∀ (fgbio : String) (w : World) (req : SortBamRequest) (e : Exc)
        (log : List (List String)),
      Server.sort_bam_body fgbio w req = (.error e, log) →
      Server.sort_bam fgbio w req =
        ({ success := false, message := excHandlerMsg e,
           input_file := req.input_bam, output_file := req.output_bam,
           sort_order := req.sort_order, command_executed := none,
           stdout := none, stderr := none }, log)) ∧
    (∀ (w : World) (req : FilterBamRequest),
      (Server.filter_bam w req).1.success = false ∧
      (Server.filter_bam w req).1.message =
        "Unexpected error: " ++ attrErrMsg ∧
      (Server.filter_bam w req).1.input_file = req.input_bam ∧
      (Server.filter_bam w req).1.output_file = req.output_bam ∧
      (Server.filter_bam w req).2 = []) := by
  constructor
  · intro fgbio w req e log h
    unfold Server.sort_bam
    rw [h]
  · intro w req
    exact ⟨rfl, rfl, rfl, rfl, rfl⟩

/-- C2 witness: a missing input file becomes a failure response from
sort_bam, and a fully valid filter request still gets the structured
AttributeError failure from filter_bam. -/
def c2World : World :=
  ⟨fun _ => false, fun _ => false, fun _ => .timedOut, fun _ => false⟩

def c2SortReq : SortBamRequest := ⟨"a.bam", "b.bam", "coordinate", none, none⟩

def c2FilterReq : FilterBamRequest :=
  ⟨"a.bam", "b.bam", none, none, true, true, 1, false, true, none, none, none⟩

theorem c2_handler_error_containment_witness :
    Server.sort_bam "fgbio" c2World c2SortReq =
      ({ success := false,
         message := "fgbio error: File does not exist: a.bam",
         input_file := "a.bam", output_file := "b.bam",
         sort_order := "coordinate", command_executed := none,
         stdout := none, stderr := none }, []) ∧
    (Server.filter_bam c2World c2FilterReq).1.success = false :=
  ⟨c2_handler_error_containment.1 "fgbio" c2World c2SortReq
      (.fgbio (.fileNotExists "a.bam")) [] rfl,
   (c2_handler_error_containment.2 c2World c2FilterReq).1⟩

/-- Helper: input-path validation succeeds when the path exists and is a
regular file. -/
theorem validate_input_ok (w : World) (p : String)
    (hex : w.pathExists p = true) (hf : w.isFile p = true) :
    _validate_file_path w p true = .ok p := by
  unfold _validate_file_path
  simp [hex, hf]

/-- Helper: output-path validation succeeds when the parent directory
exists. -/
theorem validate_output_ok (w : World) (p : String)
    (hd : w.pathExists (parentPath p) = true) :
    _validate_file_path w p false = .ok p := by
  unfold _validate_file_path
  simp [hd]

/-- C6: for both handlers (the filter one through its spec-modelled wrapper
call), a run that exits 0 while the destination is absent afterwards yields
a failure response whose message reports the missing output, and a success
response is produced only when the destination exists after the run. -/
theorem c6_output_verification :
    (∀ (fgbio : String) (w : World) (req : SortBamRequest) (out err : String),
      w.pathExists req.input_bam = true → w.isFile req.input_bam = true →
      w.pathExists (parentPath req.output_bam) = true →
      w.run (_build_command fgbio "SortBam"
        (sortParamsList req.input_bam req.output_bam req.sort_order
          req.temp_dir req.max_records_in_ram)) = .completed 0 out err →
      w.existsAfter req.output_bam = false →
      (Server.sort_bam fgbio w req).1.success = false ∧
      (Server.sort_bam fgbio w req).1.message =
        "fgbio error: Output BAM file was not created") ∧
    (∀ (fgbio : String) (w : World) (req : SortBamRequest),
      (Server.sort_bam fgbio w req).1.success = true →
      w.existsAfter req.output_bam = true) ∧
    (∀ (fgbio : String) (w : World) (req : FilterBamRequest) (out err : String),
      w.pathExists req.input_bam = true → w.isFile req.input_bam = true →
      w.pathExists (parentPath req.output_bam) = true →
      w.run (_build_command fgbio "FilterBam"
        (filterParamsList req.input_bam req.output_bam req.rejects
          req.intervals req.remove_duplicates req.remove_unmapped_reads
          req.min_map_q req.remove_single_end_mappings
          req.remove_secondary_alignments req.min_insert_size
          req.max_insert_size req.min_mapped_bases)) = .completed 0 out err →
      w.existsAfter req.output_bam = false →
      (Server.filter_bam_intended fgbio w req).1.success = false ∧
      (Server.filter_bam_intended fgbio w req).1.message =
        "fgbio error: Output BAM file was not created") ∧
    (∀ (fgbio : String) (w : World) (req : FilterBamRequest),
      (Server.filter_bam_intended fgbio w req).1.success = true →
      w.existsAfter req.output_bam = true) := by
  refine ⟨?_, ?_, ?_, ?_⟩
  · intro fgbio w req out err hin hfile hdir hrun hafter
    unfold Server.sort_bam Server.sort_bam_body FgbioWrapper.sort_bam
    rw [validate_input_ok w req.input_bam hin hfile,
      validate_output_ok w req.output_bam hdir]
    rw [run_command_eq, hrun]
    simp [hafter, excHandlerMsg, FgbioErr.msg]
  · intro fgbio w req hsucc
    by_contra hne
    have hex : w.existsAfter req.output_bam = false := by
      cases hx : w.existsAfter req.output_bam
      · rfl
      · exact absurd hx hne
    unfold Server.sort_bam Server.sort_bam_body at hsucc
    cases hwres : FgbioWrapper.sort_bam fgbio w req.input_bam req.output_bam
        req.sort_order req.temp_dir req.max_records_in_ram with
    | mk r log =>
      rw [hwres] at hsucc
      cases r with
      | error e => simp at hsucc
      | ok result => simp [hex] at hsucc
  · intro fgbio w req out err hin hfile hdir hrun hafter
    unfold Server.filter_bam_intended Server.filter_bam_intended_body
      FgbioWrapper.filter_bam_modelled
    rw [validate_input_ok w req.input_bam hin hfile,
      validate_output_ok w req.output_bam hdir]
    rw [run_command_eq, hrun]
    simp [hafter, excHandlerMsg, FgbioErr.msg]
  · intro fgbio w req hsucc
    by_contra hne
    have hex : w.existsAfter req.output_bam = false := by
      cases hx : w.existsAfter req.output_bam
      · rfl
      · exact absurd hx hne
    unfold Server.filter_bam_intended Server.filter_bam_intended_body at hsucc
    cases hwres : FgbioWrapper.filter_bam_modelled fgbio w req.input_bam
        req.output_bam req.rejects req.intervals req.remove_duplicates
        req.remove_unmapped_reads req.min_map_q req.remove_single_end_mappings
        req.remove_secondary_alignments req.min_insert_size
        req.max_insert_size req.min_mapped_bases with
    | mk r log =>
      rw [hwres] at hsucc
      cases r with
      | error e => simp at hsucc
      | ok result => simp [hex] at hsucc

/-- C6 witness: a tool that exits 0 without creating the destination makes
both handlers answer with the output-not-created failure. -/
def c6World : World :=
  ⟨fun p => p = "in.bam" || p = ".", fun p => p = "in.bam",
   fun _ => .completed 0 "" "", fun _ => false⟩

def c6SortReq : SortBamRequest := ⟨"in.bam", "out.bam", "coordinate", none, none⟩

def c6FilterReq : FilterBamRequest :=
  ⟨"in.bam", "out.bam", none, none, true, true, 1, false, true, none, none, none⟩

theorem c6_output_verification_witness :
    ((Server.sort_bam "fgbio" c6World c6SortReq).1.success = false ∧
      (Server.sort_bam "fgbio" c6World c6SortReq).1.message =
        "fgbio error: Output BAM file was not created") ∧
    ((Server.filter_bam_intended "fgbio" c6World c6FilterReq).1.success = false ∧
      (Server.filter_bam_intended "fgbio" c6World c6FilterReq).1.message =
        "fgbio error: Output BAM file was not created") :=
  ⟨c6_output_verification.1 "fgbio" c6World c6SortReq "" ""
      (by decide) (by decide) (by decide) rfl rfl,
   c6_output_verification.2.2.1 "fgbio" c6World c6FilterReq "" ""
      (by decide) (by decide) (by decide) rfl rfl⟩

/-- C8: a sort request with max_records_in_ram = 0 is rejected at request
construction, which involves no process oracle at all; a sort request whose
input path does not exist yields a failure response naming the missing file
with an empty spawn log (no external process for the operation); and
run_command spawns exactly one process, whose outcome is the only source of
execution errors. -/
theorem c8_validation_before_spawn :
    (∀ (i o so : String) (td : Option String),
      isErr (mkSortBamRequest i o so td (some 0)) = true) ∧
    (∀ (fgbio : String) (w : World) (req : SortBamRequest),
      w.pathExists req.input_bam = false →
      (Server.sort_bam fgbio w req).1.success = false ∧
      (Server.sort_bam fgbio w req).1.message =
        "fgbio error: File does not exist: " ++ req.input_bam ∧
      (Server.sort_bam fgbio w req).2 = []) ∧
    (∀ (fgbio : String) (w : World) (tool : String)
        (params : List (String × PValue)),
      (run_command fgbio w tool params).2 =
        [_build_command fgbio tool params]) := by
  refine ⟨?_, ?_, ?_⟩
  · intro i o so td
    unfold mkSortBamRequest
    split_ifs with h1 h2 h3 h4 h5
    · rfl
    · rfl
    · rfl
    · rfl
    · rfl
    · exact absurd (by decide) h5
  · intro fgbio w req h
    have hv : _validate_file_path w req.input_bam true =
        .error (.fgbio (.fileNotExists req.input_bam)) := by
      unfold _validate_file_path
      simp [h]
    unfold Server.sort_bam Server.sort_bam_body FgbioWrapper.sort_bam
    rw [hv]
    exact ⟨rfl, rfl, rfl⟩
  · intro fgbio w tool params
    rw [run_command_eq]
    cases h : w.run (_build_command fgbio tool params)
    case completed rc out err =>
      dsimp only
      split <;> rfl
    case timedOut => rfl
    case fileNotFound m => rfl
    case raised m => rfl

/-- C8 witness: the zero bound is rejected at construction, and a missing
input file produces the failure response with no spawned process. -/
def c8World : World :=
  ⟨fun _ => false, fun _ => false, fun _ => .completed 0 "" "", fun _ => true⟩

def c8SortReq : SortBamRequest :=
  ⟨"gone.bam", "out.bam", "coordinate", none, none⟩

theorem c8_validation_before_spawn_witness :
    isErr (mkSortBamRequest "in.bam" "out.bam" "coordinate" none (some 0)) =
      true ∧
    (Server.sort_bam "fgbio" c8World c8SortReq).1.success = false ∧
    (Server.sort_bam "fgbio" c8World c8SortReq).1.message =
      "fgbio error: File does not exist: gone.bam" ∧
    (Server.sort_bam "fgbio" c8World c8SortReq).2 = [] :=
  ⟨c8_validation_before_spawn.1 "in.bam" "out.bam" "coordinate" none,
   (c8_validation_before_spawn.2.1 "fgbio" c8World c8SortReq rfl).1,
   (c8_validation_before_spawn.2.1 "fgbio" c8World c8SortReq rfl).2.1,
   (c8_validation_before_spawn.2.1 "fgbio" c8World c8SortReq rfl).2.2⟩

/-- C9: with both insert-size bounds supplied, request construction fails
whenever max is less than or equal to min (strict bound); with all other
fields valid the rejection happens exactly when max is not strictly greater
than min; with either bound absent the cross-field check is not applied and
construction succeeds whenever the per-field checks pass. -/
theorem c9_insert_size_validation :
    (∀ (i o : String) (rj iv : Option String) (rd ru : Bool) (mq : Int)
        (rs rsa : Bool) (m M : Int) (mb : Option Int),
      M ≤ m →
      isErr (mkFilterBamRequest i o rj iv rd ru mq rs rsa
        (some m) (some M) mb) = true) ∧
    (∀ (i o : String) (rj iv : Option String) (rd ru : Bool) (mq : Int)
        (rs rsa : Bool) (m M : Int) (mb : Option Int),
      ¬(pyStrip i = "") → ¬(pyStrip o = "") → stripOptOk rj = true →
      stripOptOk iv = true → ¬(mq < 0) → 0 < m → posOptOk mb = true →
      isErr (mkFilterBamRequest i o rj iv rd ru mq rs rsa
        (some m) (some M) mb) = decide (M ≤ m)) ∧
    (∀ (i o : String) (rj iv : Option String) (rd ru : Bool) (mq : Int)
        (rs rsa : Bool) (M : Int) (mb : Option Int),
      ¬(pyStrip i = "") → ¬(pyStrip o = "") → stripOptOk rj = true →
      stripOptOk iv = true → ¬(mq < 0) → 0 < M → posOptOk mb = true →
      isErr (mkFilterBamRequest i o rj iv rd ru mq rs rsa
        none (some M) mb) = false) ∧
    (∀ (i o : String) (rj iv : Option String) (rd ru : Bool) (mq : Int)
        (rs rsa : Bool) (m : Int) (mb : Option Int),
      ¬(pyStrip i = "") → ¬(pyStrip o = "") → stripOptOk rj = true →
      stripOptOk iv = true → ¬(mq < 0) → 0 < m → posOptOk mb = true →
      isErr (mkFilterBamRequest i o rj iv rd ru mq rs rsa
        (some m) none mb) = false) := by
  refine ⟨?_, ?_, ?_, ?_⟩
  · intro i o rj iv rd ru mq rs rsa m M mb hMm
    unfold mkFilterBamRequest
    split_ifs with h1 h2 h3 h4 h5 h6 h7 h8 h9
    · rfl
    · rfl
    · rfl
    · rfl
    · rfl
    · rfl
    · rfl
    · rfl
    · rfl
    · exact absurd (by simp [insertSizeCrossBad, hMm]) h8
  · intro i o rj iv rd ru mq rs rsa m M mb hi ho hrj hiv hmq hm hmb
    have hm2 : posOptOk (some m) = true := by simp [posOptOk, hm]
    unfold mkFilterBamRequest
    by_cases hMpos : 0 < M
    · have hM2 : posOptOk (some M) = true := by simp [posOptOk, hMpos]
      by_cases hle : M ≤ m
      · simp [hi, ho, hrj, hiv, hmq, hm2, hM2, hle,
          insertSizeCrossBad, isErr, hmb]
      · simp [hi, ho, hrj, hiv, hmq, hm2, hM2, hle,
          insertSizeCrossBad, isErr, hmb]
    · have hM2 : posOptOk (some M) = false := by simp [posOptOk, hMpos]
      have hle : M ≤ m := le_trans (not_lt.mp hMpos) (le_of_lt hm)
      simp [hi, ho, hrj, hiv, hmq, hm2, hM2, hle,
        insertSizeCrossBad, isErr, hmb]
  · intro i o rj iv rd ru mq rs rsa M mb hi ho hrj hiv hmq hM hmb
    have hM2 : posOptOk (some M) = true := by simp [posOptOk, hM]
    have hn : posOptOk (none : Option Int) = true := rfl
    unfold mkFilterBamRequest
    simp [hi, ho, hrj, hiv, hmq, hM2, hn, insertSizeCrossBad, isErr, hmb]
  · intro i o rj iv rd ru mq rs rsa m mb hi ho hrj hiv hmq hm hmb
    have hm2 : posOptOk (some m) = true := by simp [posOptOk, hm]
    have hn : posOptOk (none : Option Int) = true := rfl
    unfold mkFilterBamRequest
    simp [hi, ho, hrj, hiv, hmq, hm2, hn, insertSizeCrossBad, isErr, hmb]

/-- C9 witness: equal bounds 500/500 are rejected, 200/800 passes, and a
single bound with the other absent passes. -/
theorem c9_insert_size_validation_witness :
    isErr (mkFilterBamRequest "in.bam" "out.bam" none none true true 1
      false true (some 500) (some 500) none) = true ∧
    isErr (mkFilterBamRequest "in.bam" "out.bam" none none true true 1
      false true (some 200) (some 800) none) = false ∧
    isErr (mkFilterBamRequest "in.bam" "out.bam" none none true true 1
      false true none (some 800) none) = false ∧
    isErr (mkFilterBamRequest "in.bam" "out.bam" none none true true 1
      false true (some 200) none none) = false :=
  ⟨c9_insert_size_validation.1 "in.bam" "out.bam" none none true true 1
      false true 500 500 none (by decide),
   by
    have h := c9_insert_size_validation.2.1 "in.bam" "out.bam" none none
      true true 1 false true 200 800 none (by decide) (by decide) rfl rfl
      (by decide) (by decide) rfl
    simpa using h,
   c9_insert_size_validation.2.2.1 "in.bam" "out.bam" none none true true 1
      false true 800 none (by decide) (by decide) rfl rfl (by decide)
      (by decide) rfl,
   c9_insert_size_validation.2.2.2 "in.bam" "out.bam" none none true true 1
      false true 200 none (by decide) (by decide) rfl rfl (by decide)
      (by decide) rfl⟩

/-- World for a fully favorable filter scenario: input exists and is a
file, the output parent exists, the tool exits 0, and the destination
exists afterwards. -/
def c1World : World :=
  ⟨fun p => p = "/data/in.bam" || p = "/data", fun p => p = "/data/in.bam",
   fun _ => .completed 0 "" "", fun _ => true⟩

/-- Valid filter request with both insert-size bounds supplied. -/
def c1Req : FilterBamRequest :=
  ⟨"/data/in.bam", "/data/out.bam", none, none, true, true, 1, false, true,
   some 200, some 800, none⟩

/-- Valid filter request with neither insert-size bound supplied. -/
def c1ReqNoIns : FilterBamRequest :=
  ⟨"/data/in.bam", "/data/out.bam", none, none, true, true, 1, false, true,
   none, none, none⟩

/-- C1: evaluation at the failing input.  The request passes validation and
the world is fully favorable, yet the handler as written returns
success=false with the AttributeError message and an empty summary, because
FgbioWrapper has no filter_bam method; the handler with the wrapper call
resolved as the spec intends returns success with the summary containing
the five toggles, min_map_q and both insert-size bounds, and omits the
insert-size keys when neither bound is given. -/
theorem c1_filter_summary_unreachable :
    mkFilterBamRequest "/data/in.bam" "/data/out.bam" none none true true 1
      false true (some 200) (some 800) none = .ok c1Req ∧
    Server.filter_bam c1World c1Req =
      ({ success := false, message := "Unexpected error: " ++ attrErrMsg,
         input_file := "/data/in.bam", output_file := "/data/out.bam",
         rejects_file := none, intervals_file := none, filters_applied := [],
         command_executed := none, stdout := none, stderr := none }, []) ∧
    (Server.filter_bam_intended "fgbio" c1World c1Req).1.success = true ∧
    (Server.filter_bam_intended "fgbio" c1World c1Req).1.filters_applied =
      [("remove_duplicates", FilterVal.b true),
       ("remove_unmapped_reads", FilterVal.b true),
       ("min_map_q", FilterVal.i 1),
       ("remove_single_end_mappings", FilterVal.b false),
       ("remove_secondary_alignments", FilterVal.b true),
       ("min_insert_size", FilterVal.i 200),
       ("max_insert_size", FilterVal.i 800)] ∧
    (Server.filter_bam_intended "fgbio" c1World c1ReqNoIns).1.filters_applied =
      [("remove_duplicates", FilterVal.b true),
       ("remove_unmapped_reads", FilterVal.b true),
       ("min_map_q", FilterVal.i 1),
       ("remove_single_end_mappings", FilterVal.b false),
       ("remove_secondary_alignments", FilterVal.b true)] :=
  ⟨rfl, rfl, rfl, rfl, rfl⟩
